import Mathlib

/-!
Shallow embedding of `src/program_files/create_objects.py` (SESMG):
construction of energy-system components (buses, sources, sinks,
transformers, storages, links) from tabular row data.

Conventions of the embedding:
* pandas/numpy floats are rationals; a possibly-missing (NaN) float is
  `Option ℚ` (`none` = NaN), written `PFloat`;
* a Python value that is either a scalar or a time series is `PyNum`;
* `math.inf` used as an investment bound is `QInf.inf`;
* raised exceptions (`SystemError`, unbound locals) are `Except BuildError`;
  the spec (section 7) calls the `SystemError` raises `ConfigurationError`,
  so that constructor keeps the spec name;
* external collaborators (feedinlib, demandlib, richardsonpy, oemof.thermal
  precalculations, weather data) are parameters of the embedded functions:
  their outputs are inputs here, exactly as the spec treats them.
-/

namespace SESMG

/-- A pandas float value: `none` models NaN / a missing entry. -/
abbrev PFloat := Option ℚ

/-- A Python value that is either a scalar number or a time series. -/
inductive PyNum where
  | scalar (q : ℚ)
  | series (xs : List PFloat)
deriving Repr, DecidableEq

/-- A rational extended with positive infinity (`math.inf`). -/
inductive QInf where
  | val (q : ℚ)
  | inf
deriving Repr, DecidableEq

/-- The keyword arguments selecting the profile of a flow:
`fix`, `min`, `max`, `nominal_value`; a key absent from the Python
dict is `none`. -/
structure TimeseriesArgs where
  fix : Option PyNum := none
  min : Option PyNum := none
  max : Option PyNum := none
  nominal_value : Option ℚ := none
deriving Repr, DecidableEq

/-- `solph.Investment` as assembled by `create_objects.py`; fields not
passed at a call site take the oemof defaults (0 / false). -/
structure Investment where
  ep_costs : ℚ := 0
  periodical_constraint_costs : ℚ := 0
  minimum : ℚ := 0
  maximum : QInf := QInf.val 0
  existing : ℚ := 0
  nonconvex : Bool := false
  offset : ℚ := 0
deriving Repr, DecidableEq

/-- `solph.Flow` as assembled by `create_objects.py`. -/
structure FlowData where
  variable_costs : ℚ := 0
  emission_factor : ℚ := 0
  args : TimeseriesArgs := {}
  investment : Option Investment := none
deriving Repr, DecidableEq

/-- A constructed oemof node.  Attached buses are referenced by label,
matching the `busd` label-to-bus dictionary of the source. -/
inductive Node where
  | bus (label : String)
  | source (label : String) (outputBus : String) (flow : FlowData)
  | sink (label : String) (inputBus : String) (flow : FlowData)
  | transformer (label : String)
      (inputs : List (String × FlowData))
      (outputs : List (String × FlowData))
      (conversion_factors : List (String × PyNum))
  | genericCHP (label : String) (fuelBus elBus heatBus : String)
      (hlFgShareMax hlFgShareMin : List ℚ) (fuelFlow : FlowData)
      (elInvestment : Investment)
      (pMaxWoDH pMinWoDH etaElMaxWoDH etaElMinWoDH : List ℚ)
      (elFlow : FlowData) (qCwMin : List ℚ) (heatFlow : FlowData)
      (beta : List ℚ) (backPressure : ℚ)
  | storage (label : String) (busLabel : String)
      (inflow outflow : FlowData)
      (lossRate : PyNum) (fixedLossesRelative fixedLossesAbsolute : PyNum)
      (minStorageLevel maxStorageLevel : Option ℚ)
      (inflowConversion outflowConversion : ℚ)
      (investRelationInput investRelationOutput : ℚ)
      (investment : Investment)
  | link (label : String) (bus1 bus2 : String)
      (outFlowBus2 outFlowBus1 : FlowData)
      (convForward convReverse : ℚ)
deriving Repr, DecidableEq

/-- Raised exceptions.  `configuration` embeds the `SystemError` raises of
the source, which the spec taxonomy names `ConfigurationError`;
`unboundLocal` embeds a Python UnboundLocalError on a code path that
reads a never-assigned local. -/
inductive BuildError where
  | configuration (message : String)
  | unboundLocal (message : String)
deriving Repr, DecidableEq

/-- `True` on the bus node carrying the given label. -/
def Node.isBusLabeled (l : String) : Node → Bool
  | .bus l' => l' == l
  | _ => false

/-- `True` on a sink node with the given label attached to the given bus. -/
def Node.isSinkOn (l : String) (b : String) : Node → Bool
  | .sink l' b' _ => l' == l && b' == b
  | _ => false

/-- `True` on a source node with the given label attached to the given bus. -/
def Node.isSourceOn (l : String) (b : String) : Node → Bool
  | .source l' b' _ => l' == l && b' == b
  | _ => false

/-- The profile keyword arguments of a source/sink node (empty for the
other node kinds). -/
def Node.flowArgs : Node → TimeseriesArgs
  | .source _ _ f => f.args
  | .sink _ _ f => f.args
  | _ => {}

/-- A Python dict keyed by strings, with insertion order and
overwrite-on-assignment semantics. -/
def dictSet (d : List (String × String)) (k v : String) :
    List (String × String) :=
  if d.any (fun p => p.1 == k) then
    d.map (fun p => if p.1 == k then (k, v) else p)
  else
    d ++ [(k, v)]

/-- Dict lookup. -/
def dictGet (d : List (String × String)) (k : String) : Option String :=
  (d.find? (fun p => p.1 == k)).map Prod.snd

/-! ## Bus registry (`buses`, create_objects.py lines 23-102) -/

/-- One row of the buses sheet. -/
structure BusRow where
  label : String := ""
  active : Bool := false
  excess : Bool := false
  shortage : Bool := false
  excess_costs : ℚ := 0
  shortage_costs : ℚ := 0
  excess_constraint_costs : ℚ := 0
  shortage_constraint_costs : ℚ := 0
deriving Repr, DecidableEq

/-- The loop body of `buses`: processes one bus row, threading the bus
dictionary `busd` and the shared node list. -/
def busesStep (acc : List (String × String) × List Node) (b : BusRow) :
    List (String × String) × List Node :=
  let (busd, nodes) := acc
  if b.active then
    let nodes := nodes ++ [Node.bus b.label]
    let busd := dictSet busd b.label b.label
    let nodes :=
      if b.excess then
        nodes ++ [Node.sink (b.label ++ "_excess") b.label
          { variable_costs := b.excess_costs
            emission_factor := b.excess_constraint_costs }]
      else nodes
    let nodes :=
      if b.shortage then
        nodes ++ [Node.source (b.label ++ "_shortage") b.label
          { variable_costs := b.shortage_costs
            emission_factor := b.shortage_constraint_costs }]
      else nodes
    (busd, nodes)
  else (busd, nodes)

/-- `buses(nodes_data, nodes)`: iterates the bus rows, appending created
components to `nodes` and collecting the created buses in `busd`. -/
def buses (rows : List BusRow) (nodes : List Node) :
    List (String × String) × List Node :=
  rows.foldl busesStep ([], nodes)

/-! ## Source builder (`Sources`, create_objects.py lines 105-683) -/

/-- One row of the sources sheet (the fields `create_objects.py` reads). -/
structure SourceRow where
  label : String := ""
  active : Bool := false
  technology : String := ""
  input : String := ""
  output : String := ""
  fixed : ℚ := 0
  variable_costs : ℚ := 0
  variable_constraint_costs : ℚ := 0
  periodical_costs : ℚ := 0
  periodical_constraint_costs : ℚ := 0
  min_investment_capacity : ℚ := 0
  max_investment_capacity : ℚ := 0
  existing_capacity : ℚ := 0
  non_convex_investment : ℚ := 0
  fix_investment_costs : ℚ := 0
  conversion_factor_solar : ℚ := 0
  peripheral_losses : ℚ := 0
  electric_consumption : ℚ := 0
deriving Repr, DecidableEq

/-- The fill-in checklist of `create_source` used to recognize an unset
`input` cell. -/
def checklist : List String := ["X", "x", "", "0", "None", "none", "nan"]

/-- `Sources.create_source`: builds the source node.  `output = none`
selects the bus labeled by the `output` cell (the `busd` lookup); a
non-fill-in `input` cell (solar thermal heat) rescales the investment
bounds by the area conversion factor. -/
def create_source (so : SourceRow) (timeseries_args : TimeseriesArgs)
    (output : Option String := none) : Node :=
  let out := output.getD so.output
  let minimum :=
    if checklist.contains so.input then so.min_investment_capacity
    else so.min_investment_capacity * so.conversion_factor_solar
  let maximum :=
    if checklist.contains so.input then so.max_investment_capacity
    else so.max_investment_capacity * so.conversion_factor_solar
  let existing :=
    if checklist.contains so.input then so.existing_capacity
    else so.existing_capacity * so.conversion_factor_solar
  Node.source so.label out
    { variable_costs := so.variable_costs
      emission_factor := so.variable_constraint_costs
      args := timeseries_args
      investment := some
        { ep_costs := so.periodical_costs
          periodical_constraint_costs := so.periodical_constraint_costs
          minimum := minimum
          maximum := QInf.val maximum
          existing := existing
          nonconvex := so.non_convex_investment == 1
          offset := so.fix_investment_costs } }

/-- `Sources.commodity_source`: flexible dispatch, `min = 0`, `max = 1`. -/
def commodity_source (so : SourceRow) : Node :=
  create_source so { min := some (.scalar 0), max := some (.scalar 1) }

/-- `Sources.timeseries_source`: profile read from the time_series sheet,
keyed by label and the fixed flag; any other fixed value raises. -/
def timeseries_source (so : SourceRow)
    (time_series : String → List PFloat) : Except BuildError Node := do
  let args ←
    if so.fixed = 1 then
      Except.ok
        ({ fix := some (.series (time_series (so.label ++ ".fix"))) } :
          TimeseriesArgs)
    else if so.fixed = 0 then
      Except.ok
        { min := some (.series (time_series (so.label ++ ".min")))
          max := some (.series (time_series (so.label ++ ".max"))) }
    else
      Except.error
        (.configuration (so.label ++ " Error in fixed attribute"))
  Except.ok (create_source so args)

/-- `fillna(0)`: replaces every missing (NaN) entry by 0. -/
def fillna0 (xs : List PFloat) : List PFloat :=
  xs.map (fun x => some (x.getD 0))

/-- Python `x < c` where `x` may be NaN (any comparison with NaN is
false). -/
def pyLtC (x : PFloat) (c : ℚ) : Bool :=
  match x with
  | none => false
  | some q => decide (q < c)

/-- Python `x > c` where `x` may be NaN. -/
def pyGtC (x : PFloat) (c : ℚ) : Bool :=
  match x with
  | none => false
  | some q => decide (c < q)

/-- One iteration of the pv feed-in preparation loop: clip the value at
index `i` to `[0, 1]`, then `fillna(0)` the whole series (the source
calls `fillna` inside the loop body). -/
def pvClipStep (xs : List PFloat) (i : ℕ) : List PFloat :=
  let xs := if pyLtC (xs.getD i none) 0 then xs.set i (some 0) else xs
  let xs := if pyGtC (xs.getD i none) 1 then xs.set i (some 1) else xs
  fillna0 xs

/-- The pv feed-in preparation loop of `Sources.pv_source`
(`for i in range(len(feedin)) : ...`). -/
def pvPrepare (feedin : List PFloat) : List PFloat :=
  (List.range feedin.length).foldl pvClipStep feedin

/-- `Sources.pv_source`: the simulated feed-in (a feedinlib output, an
external collaborator) is prepared by the clipping loop and attached as
fixed or bounded profile. -/
def pv_source (so : SourceRow) (feedin : List PFloat) :
    Except BuildError Node := do
  let feedin := pvPrepare feedin
  let args ←
    if so.fixed = 1 then
      Except.ok ({ fix := some (.series feedin) } : TimeseriesArgs)
    else if so.fixed = 0 then
      Except.ok { min := some (.scalar 0), max := some (.series feedin) }
    else
      Except.error
        (.configuration (so.label ++ " Error in fixed attribute"))
  Except.ok (create_source so args)

/-- `Sources.windpower_source`: the scaled turbine feed-in (a feedinlib
output) is attached unmodified as fixed or bounded profile. -/
def windpower_source (so : SourceRow) (feedin_wind_scaled : List PFloat) :
    Except BuildError Node := do
  let args ←
    if so.fixed = 1 then
      Except.ok ({ fix := some (.series feedin_wind_scaled) } :
        TimeseriesArgs)
    else if so.fixed = 0 then
      Except.ok
        { min := some (.scalar 0), max := some (.series feedin_wind_scaled) }
    else
      Except.error
        (.configuration (so.label ++ " Error in fixed attribute"))
  Except.ok (create_source so args)

/-- W/sqm to kW/sqm conversion of a precalculation result series. -/
def divSeries1000 (xs : List PFloat) : List PFloat :=
  xs.map (Option.map (fun q => q / 1000))

/-- The `collectors_heat` series of `Sources.solar_heat_source`: selected
by technology from the oemof.thermal precalculation results (external
collaborators, given as the raw inputs here) and unit-converted.  For any
other technology the local stays unassigned and its use raises. -/
def solarCollectorsHeat (so : SourceRow) (flatRaw cspRaw : List PFloat) :
    Except BuildError (List PFloat) :=
  if so.technology == "solar_thermal_flat_plate" then
    .ok (divSeries1000 flatRaw)
  else if so.technology == "concentrated_solar_power" then
    .ok (divSeries1000 cspRaw)
  else
    .error (.unboundLocal
      "local variable collectors_heat referenced before assignment")

/-- `Sources.solar_heat_source`: creates an auxiliary collector bus, the
collector source on that bus, and the parasitic-consumption transformer
wiring collector bus plus electric input to the heat output. -/
def solar_heat_source (so : SourceRow) (flatRaw cspRaw : List PFloat) :
    Except BuildError (List Node) := do
  let colBus := so.label ++ "_bus"
  let collectors_heat ← solarCollectorsHeat so flatRaw cspRaw
  let args ←
    if so.fixed = 1 then
      Except.ok ({ fix := some (.series collectors_heat) } : TimeseriesArgs)
    else if so.fixed = 0 then
      Except.ok
        { min := some (.scalar 0), max := some (.series collectors_heat) }
    else
      Except.error
        (.configuration (so.label ++ " Error in fixed attribute"))
  Except.ok
    [Node.bus colBus,
     create_source so args (some colBus),
     Node.transformer (so.label ++ "_collector")
       [(colBus, { variable_costs := 0 }),
        (so.input, { variable_costs := 0 })]
       [(so.output, { variable_costs := 0 })]
       [(colBus, .scalar 1),
        (so.input, .scalar
          (so.electric_consumption * (1 - so.peripheral_losses))),
        (so.output, .scalar (1 - so.peripheral_losses))]]

/-- Python truthiness of a string: non-empty strings are true. -/
def pyTruthy (s : String) : Bool := s != ""

/-- The per-technology dispatch target of `Sources.__init__`. -/
inductive SourceBranch where
  | commodity
  | photovoltaic
  | windpower
  | timeseries
  | solarHeat
  | skipped
deriving Repr, DecidableEq

/-- The technology dispatch chain of `Sources.__init__`.  The last guard
transcribes the Python `elif technology == X or 'concentrated_solar_power':`
literally: its right operand is a non-empty string literal. -/
def sourcesDispatch (technology : String) : SourceBranch :=
  if technology == "other" then .commodity
  else if technology == "photovoltaic" then .photovoltaic
  else if technology == "windpower" then .windpower
  else if technology == "timeseries" then .timeseries
  else if technology == "solar_thermal_flat_plate"
      || pyTruthy "concentrated_solar_power" then .solarHeat
  else .skipped

/-- The external inputs consumed by `Sources.__init__` per row: simulated
feed-in series and the time_series sheet. -/
structure SourceExternals where
  feedinPV : List PFloat
  feedinWind : List PFloat
  flatRaw : List PFloat
  cspRaw : List PFloat
  timeSeries : String → List PFloat

/-- One iteration of the row loop of `Sources.__init__`: the nodes the
row adds to the class-intern `nodes_sources` list, or the raised error. -/
def processSourceRow (so : SourceRow) (ext : SourceExternals) :
    Except BuildError (List Node) :=
  if so.active then
    match sourcesDispatch so.technology with
    | .commodity => .ok [commodity_source so]
    | .photovoltaic => (pv_source so ext.feedinPV).map (fun n => [n])
    | .windpower => (windpower_source so ext.feedinWind).map (fun n => [n])
    | .timeseries => (timeseries_source so ext.timeSeries).map (fun n => [n])
    | .solarHeat => solar_heat_source so ext.flatRaw ext.cspRaw
    | .skipped => .ok []
  else .ok []

/-- The row loop of `Sources.__init__` accumulating `nodes_sources`. -/
def sourcesLoop (ext : SourceExternals) :
    List SourceRow → List Node → Except BuildError (List Node)
  | [], acc => .ok acc
  | so :: rest, acc => do
      let new ← processSourceRow so ext
      sourcesLoop ext rest (acc ++ new)

/-- `Sources.__init__`: builds all source rows, then appends the
collected `nodes_sources` to the shared node list. -/
def sourcesInit (rows : List SourceRow) (ext : SourceExternals)
    (nodes : List Node) : Except BuildError (List Node) := do
  let nodes_sources ← sourcesLoop ext rows []
  Except.ok (nodes ++ nodes_sources)

/-! ## Sink builder (`Sinks`, create_objects.py lines 686-1073) -/

/-- One row of the demand sheet. -/
structure SinkRow where
  label : String := ""
  active : Bool := false
  fixed : ℚ := 0
  input : String := ""
  load_profile : String := ""
  nominal_value : ℚ := 0
  annual_demand : ℚ := 0
  occupants : ℚ := 0
  building_class : ℚ := 0
  wind_class : ℚ := 0
deriving Repr, DecidableEq

/-- `Sinks.create_sink`: builds the sink node on the bus named by the
`input` cell, with the given profile keyword arguments. -/
def create_sink (de : SinkRow) (timeseries_args : TimeseriesArgs) : Node :=
  Node.sink de.label de.input { args := timeseries_args }

/-- `Sinks.unfixed_sink`: nominal value only. -/
def unfixed_sink (de : SinkRow) : Node :=
  create_sink de { nominal_value := some de.nominal_value }

/-- `Sinks.timeseries_sink`: nominal value plus, by fixed flag, a min/max
pair or a fixed profile from the time_series sheet (no raise for other
fixed values: the arguments stay nominal-only). -/
def timeseries_sink (de : SinkRow) (time_series : String → List PFloat) :
    Node :=
  let args : TimeseriesArgs := { nominal_value := some de.nominal_value }
  let args :=
    if de.fixed = 0 then
      { args with
        min := some (.series (time_series (de.label ++ ".min")))
        max := some (.series (time_series (de.label ++ ".max"))) }
    else if de.fixed = 1 then
      { args with fix := some (.series (time_series (de.label ++ ".fix"))) }
    else args
  create_sink de args

/-- `Sinks.slp_sink`: the synthesized standard-load-profile demand curve
(a demandlib output, an external collaborator) is attached with the
annual demand as nominal value; fixed rows set `fix`, unfixed rows set
only `max`. -/
def slp_sink (de : SinkRow) (demand : List PFloat) : Node :=
  let args : TimeseriesArgs := { nominal_value := some de.annual_demand }
  let args :=
    if de.fixed = 1 then { args with fix := some (.series demand) }
    else if de.fixed = 0 then { args with max := some (.series demand) }
    else args
  create_sink de args

/-- Temporal resolution to a timestep in seconds
(`Sinks.richardson_sink`); unknown resolutions raise. -/
def richardsonTimestep (temp_resolution : String) : Except BuildError ℚ :=
  if temp_resolution == "H" then .ok 3600
  else if temp_resolution == "h" then .ok 3600
  else if temp_resolution == "min" then .ok 60
  else if temp_resolution == "s" then .ok 1
  else .error (.configuration "Invalid Temporal Resolution")

/-- The occupant workaround of `Sinks.richardson_sink`: richardson.py
allows at most 5 occupants, larger counts are clamped. -/
def richardsonNbOcc (n : ℚ) : ℚ := if 5 < n then 5 else n

/-- `Sinks.richardson_sink`: simulates a stochastic load curve (the
richardsonpy simulation is the external `sim`, applied to the clamped
occupant count), computes its annual energy, and rescales via the
nominal value so the declared annual demand is met. -/
def richardson_sink (de : SinkRow) (temp_resolution : String)
    (sim : ℚ → List ℚ) : Except BuildError Node := do
  let timestep ← richardsonTimestep temp_resolution
  let nb_occ := richardsonNbOcc de.occupants
  let load_profile := sim nb_occ
  let richardson_demand := load_profile.sum * timestep / (3600 * 1000)
  let annual_demand := de.annual_demand
  let demand_ratio := annual_demand / richardson_demand
  let args : TimeseriesArgs :=
    { nominal_value := some ((1 / 1000) * demand_ratio) }
  let args :=
    if de.fixed = 1 then
      { args with fix := some (.series (load_profile.map some)) }
    else if de.fixed = 0 then
      { args with max := some (.series (load_profile.map some)) }
    else args
  Except.ok (create_sink de args)

/-- The standard-load-profile keys recognized by `Sinks.__init__`. -/
def slpsList : List String :=
  ["efh", "mfh", "gmf", "gpd", "ghd", "gwa", "ggb", "gko", "gbd",
   "gba", "gmk", "gbh", "gga", "gha", "h0", "g0", "g1", "g2",
   "g3", "g4", "g5", "g6", "l0", "l1", "l2"]

/-- The external inputs consumed by `Sinks.__init__`. -/
structure SinkExternals where
  timeSeries : String → List PFloat
  slpDemand : String → List PFloat
  tempResolution : String
  richardsonSim : ℚ → List ℚ

/-- One iteration of the row loop of `Sinks.__init__`. -/
def processSinkRow (de : SinkRow) (ext : SinkExternals) :
    Except BuildError (List Node) :=
  if de.active then
    if de.load_profile == "x" then .ok [unfixed_sink de]
    else if de.load_profile == "timeseries" then
      .ok [timeseries_sink de ext.timeSeries]
    else if slpsList.contains de.load_profile then
      .ok [slp_sink de (ext.slpDemand de.load_profile)]
    else if de.load_profile == "richardson" then
      (richardson_sink de ext.tempResolution ext.richardsonSim).map
        (fun n => [n])
    else .ok []
  else .ok []

/-- The row loop of `Sinks.__init__` accumulating `nodes_sinks`. -/
def sinksLoop (ext : SinkExternals) :
    List SinkRow → List Node → Except BuildError (List Node)
  | [], acc => .ok acc
  | de :: rest, acc => do
      let new ← processSinkRow de ext
      sinksLoop ext rest (acc ++ new)

/-- `Sinks.__init__`: builds all demand rows, then appends the collected
`nodes_sinks` to the shared node list. -/
def sinksInit (rows : List SinkRow) (ext : SinkExternals)
    (nodes : List Node) : Except BuildError (List Node) := do
  let nodes_sinks ← sinksLoop ext rows []
  Except.ok (nodes ++ nodes_sinks)

/-! ## Transformer builder (`Transformers`, create_objects.py
lines 1076-1715) -/

/-- One row of the transformers sheet. -/
structure TransformerRow where
  label : String := ""
  active : Bool := false
  transformer_type : String := ""
  mode : String := ""
  input : String := ""
  output : String := ""
  output2 : String := ""
  efficiency : ℚ := 0
  efficiency2 : ℚ := 0
  variable_input_costs : ℚ := 0
  variable_input_constraint_costs : ℚ := 0
  variable_output_costs : ℚ := 0
  variable_output_constraint_costs : ℚ := 0
  variable_output_costs2 : ℚ := 0
  variable_output_constraint_costs2 : ℚ := 0
  periodical_costs : ℚ := 0
  periodical_constraint_costs : ℚ := 0
  min_investment_capacity : ℚ := 0
  max_investment_capacity : ℚ := 0
  existing_capacity : ℚ := 0
  non_convex_investment : ℚ := 0
  fix_investment_costs : ℚ := 0
  heat_source : String := ""
  temperature_high : ℚ := 0
  temperature_low : ℚ := 0
  quality_grade : ℚ := 0
  area : ℚ := 0
  probe_length : ℚ := 0
  heat_extraction : ℚ := 0
  min_borehole_area : ℚ := 0
  temp_threshold_icing : ℚ := 0
  factor_icing : ℚ := 0
  hl_fg_share_max : ℚ := 0
  hl_fg_share_min : ℚ := 0
  p_max_wo_dh : ℚ := 0
  p_min_wo_dh : ℚ := 0
  eta_el_max_wo_dh : ℚ := 0
  eta_el_min_wo_dh : ℚ := 0
  q_cw_min : ℚ := 0
  power_loss_index : ℚ := 0
  back_pressure : ℚ := 0
  name_absch : String := ""
  high_temperature : ℚ := 0
  chilling_temperature : ℚ := 0
  electrical_input_conversion_factor : ℚ := 0
  recooling_temperature_difference : ℚ := 0

/-- The weather/context series read from the interim weather data. -/
structure WeatherData where
  temperature : List ℚ := []
  ground_temp : List ℚ := []
  groundwater_temp : List ℚ := []
  water_temp : List ℚ := []
deriving Repr, DecidableEq

/-- `Transformers.generic_transformer`: one input, one or two outputs;
the second output investment bounds are the first bounds scaled by the
efficiency ratio, with zero periodic cost but own offset fields. -/
def generic_transformer (tf : TransformerRow) : Node :=
  let outputs :=
    [(tf.output,
      ({ variable_costs := tf.variable_output_costs
         emission_factor := tf.variable_output_constraint_costs
         investment := some
           { ep_costs := tf.periodical_costs
             periodical_constraint_costs := tf.periodical_constraint_costs
             minimum := tf.min_investment_capacity
             maximum := QInf.val tf.max_investment_capacity
             existing := tf.existing_capacity
             nonconvex := tf.non_convex_investment == 1
             offset := tf.fix_investment_costs } } : FlowData))]
  let conversion_factors := [(tf.output, PyNum.scalar tf.efficiency)]
  let (outputs, conversion_factors) :=
    if !(["None", "none", "x"].contains tf.output2) then
      let ratio := tf.efficiency2 / tf.efficiency
      (outputs ++
        [(tf.output2,
          { variable_costs := tf.variable_output_costs2
            emission_factor := tf.variable_output_constraint_costs2
            investment := some
              { ep_costs := 0
                existing := ratio * tf.existing_capacity
                minimum := ratio * tf.min_investment_capacity
                maximum := QInf.val (ratio * tf.max_investment_capacity)
                nonconvex := tf.non_convex_investment == 1
                offset := tf.fix_investment_costs } })],
       conversion_factors ++ [(tf.output2, PyNum.scalar tf.efficiency2)])
    else (outputs, conversion_factors)
  Node.transformer tf.label
    [(tf.input,
      { variable_costs := tf.variable_input_costs
        emission_factor := tf.variable_input_constraint_costs })]
    outputs conversion_factors

/-- The auxiliary-bus label infix selected by operating mode; any other
mode leaves the Python local `temp` unassigned and its use raises. -/
def chtTempSuffix (mode : String) : Except BuildError String :=
  if mode == "heat_pump" then .ok "_low_temp"
  else if mode == "chiller" then .ok "_high_temp"
  else .error (.unboundLocal
    "local variable temp referenced before assignment")

/-- Heat-source differentiation of
`Transformers.compression_heat_transformer`: label piece and capacity of
the auxiliary heat source (area-limited for boreholes, unlimited
otherwise); unknown heat sources raise. -/
def chtHeatSource (tf : TransformerRow) (temp : String) :
    Except BuildError (String × QInf) :=
  if tf.heat_source == "Ground" then
    .ok (tf.label ++ temp ++ "_ground_source",
      QInf.val (tf.area *
        (tf.probe_length * tf.heat_extraction / tf.min_borehole_area)))
  else if tf.heat_source == "GroundWater" then
    .ok (tf.label ++ temp ++ "_groundwater_source", QInf.inf)
  else if tf.heat_source == "Air" then
    .ok (tf.label ++ temp ++ "_air_source", QInf.inf)
  else if tf.heat_source == "Water" then
    .ok (tf.label ++ temp ++ "_water_source", QInf.inf)
  else
    .error (.configuration (tf.label ++ " Error in heat source attribute"))

/-- The chiller-mode high temperature series for an air heat source:
entries equal to the configured low temperature are replaced by the low
temperature plus 0.1 (the division-by-zero workaround of the source);
all other entries are kept. -/
def chillerAirTempHigh (temperature : List ℚ) (temp_low_value : ℚ) :
    List ℚ :=
  temperature.map
    (fun value =>
      if value = temp_low_value then temp_low_value + 1 / 10 else value)

/-- The weather-derived temperature series of the COP calculation: the
low side in heat-pump mode, the high side in chiller mode; unknown heat
sources raise (`problem with HeatSource`). -/
def chtWeatherTemp (tf : TransformerRow) (data : WeatherData) :
    Except BuildError (List ℚ) :=
  if tf.heat_source == "Ground" then .ok data.ground_temp
  else if tf.heat_source == "GroundWater" then .ok data.groundwater_temp
  else if tf.heat_source == "Air" then
    .ok (if tf.mode == "heat_pump" then data.temperature
         else chillerAirTempHigh data.temperature tf.temperature_low)
  else if tf.heat_source == "Water" then .ok data.water_temp
  else .error (.configuration "problem with HeatSource")

/-- Modelled from the spec: the per-timestep COP computation of
`oemof.thermal.compression_heatpumps_and_chillers.calc_cops`, an
external collaborator whose code is not part of this repository.  Per
the spec it computes, per timestep, a Carnot COP from hot/cold-side
temperatures (Kelvin numerator over the temperature differential) scaled
by an exergetic quality grade and, in heat-pump mode only, applies an
icing derating below the icing threshold.  Singleton lists broadcast
against the full-length series. -/
def calc_cops (temp_high temp_low : List ℚ) (quality_grade : ℚ)
    (temp_threshold_icing factor_icing : Option ℚ) (mode : String) :
    List ℚ :=
  let pairs :=
    if temp_high.length == 1 then
      temp_low.map (fun tl => (temp_high.headD 0, tl))
    else if temp_low.length == 1 then
      temp_high.map (fun th => (th, temp_low.headD 0))
    else temp_high.zip temp_low
  pairs.map (fun p =>
    if mode == "heat_pump" then
      let cop := quality_grade * (p.1 + 27315 / 100) / (p.1 - p.2)
      match temp_threshold_icing, factor_icing with
      | some thr, some fi => if p.2 ≤ thr then fi * cop else cop
      | _, _ => cop
    else quality_grade * (p.2 + 27315 / 100) / (p.1 - p.2))

/-- `Transformers.compression_heat_transformer`: auxiliary bus, heat
source with mode/heat-source dependent label and capacity, and the
transformer whose conversion factors are derived per timestep from the
COP series. -/
def compression_heat_transformer (tf : TransformerRow)
    (data : WeatherData) : Except BuildError (List Node) := do
  let temp ← chtTempSuffix tf.mode
  let busNode := Node.bus (tf.label ++ temp ++ "_bus")
  let hs ← chtHeatSource tf temp
  let heatSourceNode :=
    Node.source hs.1 (tf.label ++ temp ++ "_bus")
      { variable_costs := 0
        investment := some
          { ep_costs := 0, minimum := 0, maximum := hs.2, existing := 0 } }
  let weatherTemp ← chtWeatherTemp tf data
  let (temp_high, temp_low, temp_threshold_icing, factor_icing) :=
    if tf.mode == "heat_pump" then
      ([tf.temperature_high], weatherTemp,
       some tf.temp_threshold_icing, some tf.factor_icing)
    else
      (weatherTemp, [tf.temperature_low],
       (none : Option ℚ), (none : Option ℚ))
  let cops_hp :=
    calc_cops temp_high temp_low tf.quality_grade
      temp_threshold_icing factor_icing tf.mode
  let transformerNode :=
    Node.transformer tf.label
      [(tf.input,
        { variable_costs := tf.variable_input_costs
          emission_factor := tf.variable_input_constraint_costs }),
       (tf.label ++ temp ++ "_bus", { variable_costs := 0 })]
      [(tf.output,
        { variable_costs := tf.variable_output_costs
          emission_factor := tf.variable_output_constraint_costs
          investment := some
            { ep_costs := tf.periodical_costs
              minimum := tf.min_investment_capacity
              maximum := QInf.val tf.max_investment_capacity
              periodical_constraint_costs := tf.periodical_constraint_costs
              existing := tf.existing_capacity } })]
      [(tf.label ++ temp ++ "_bus",
        PyNum.series (cops_hp.map
          (fun cop => some (((cop - 1) / cop) / tf.efficiency)))),
       (tf.input, PyNum.series (cops_hp.map (fun cop => some (1 / cop))))]
  Except.ok [busNode, heatSourceNode, transformerNode]

/-- `Transformers.genericchp_transformer`: three-port combined heat and
power unit; the per-period parameter lists replicate the row value over
the declared period count. -/
def genericchp_transformer (tf : TransformerRow) (periods : ℕ) : Node :=
  Node.genericCHP tf.label tf.input tf.output tf.output2
    (List.replicate periods tf.hl_fg_share_max)
    (List.replicate periods tf.hl_fg_share_min)
    { variable_costs := tf.variable_input_costs
      emission_factor := tf.variable_input_constraint_costs }
    { ep_costs := tf.periodical_costs
      periodical_constraint_costs := tf.periodical_constraint_costs
      minimum := tf.min_investment_capacity
      maximum := QInf.val tf.max_investment_capacity
      existing := tf.existing_capacity }
    (List.replicate periods tf.p_max_wo_dh)
    (List.replicate periods tf.p_min_wo_dh)
    (List.replicate periods tf.eta_el_max_wo_dh)
    (List.replicate periods tf.eta_el_min_wo_dh)
    { variable_costs := tf.variable_output_costs
      emission_factor := tf.variable_output_constraint_costs }
    (List.replicate periods tf.q_cw_min)
    { variable_costs := tf.variable_output_costs2
      emission_factor := tf.variable_output_constraint_costs2 }
    (List.replicate periods tf.power_loss_index)
    tf.back_pressure

/-- Python `int(...)`: truncation toward zero. -/
def pyInt (q : ℚ) : ℤ := if 0 ≤ q then ⌊q⌋ else ⌈q⌉

/-- The tabulated characteristic-equation coefficients of one absorption
chiller model (from the technical-data catalog, an external input). -/
structure AbsCoeffs where
  a : ℚ := 0
  e : ℚ := 0
  s_E : ℚ := 0
  r_E : ℚ := 0
  s_G : ℚ := 0
  r_G : ℚ := 0
deriving Repr, DecidableEq

/-- Modelled from the spec: characteristic temperature difference of
`oemof.thermal.absorption_heatpumps_and_chillers.calc_characteristic_temp`
(kuehn_and_ziegler), an external collaborator whose code is not part of
this repository: per timestep, generator temperature minus `a` times the
cooling temperature plus `e` times the chilling temperature. -/
def calc_characteristic_temp (t_hot : ℚ) (t_cool : List ℚ) (t_chill : ℚ)
    (coef_a coef_e : ℚ) : List ℚ :=
  t_cool.map (fun tc => t_hot - coef_a * tc + coef_e * t_chill)

/-- Modelled from the spec: heat-flux correlation of
`oemof.thermal.absorption_heatpumps_and_chillers.calc_heat_flux`
(kuehn_and_ziegler), an external collaborator: an affine function of the
characteristic temperature difference. -/
def calc_heat_flux (ddts : List ℚ) (coef_s coef_r : ℚ) : List ℚ :=
  ddts.map (fun d => coef_s * d + coef_r)

/-- `Transformers.absorption_heat_transformer`: auxiliary bus and heat
source, then a transformer whose output conversion factor series is the
evaporator/generator heat-flux ratio (the absorption COP). -/
def absorption_heat_transformer (tf : TransformerRow) (data : WeatherData)
    (char_para : String → AbsCoeffs) : Except BuildError (List Node) := do
  let temp ← chtTempSuffix tf.mode
  let bus_label := tf.label ++ temp ++ "_bus"
  let source_label := tf.label ++ temp ++ "_source"
  let busNode := Node.bus bus_label
  let heatSourceNode :=
    Node.source source_label bus_label
      { variable_costs := tf.variable_input_costs }
  let t_cool :=
    data.temperature.map
      (fun t => ((pyInt (t + tf.recooling_temperature_difference) : ℤ) : ℚ))
  let coeffs := char_para tf.name_absch
  let ddt :=
    calc_characteristic_temp tf.high_temperature t_cool
      tf.chilling_temperature coeffs.a coeffs.e
  let q_dots_evap := calc_heat_flux ddt coeffs.s_E coeffs.r_E
  let q_dots_gen := calc_heat_flux ddt coeffs.s_G coeffs.r_G
  let cops_abs :=
    (q_dots_gen.zip q_dots_evap).map (fun p => p.2 / p.1)
  let transformerNode :=
    Node.transformer tf.label
      [(tf.input,
        { variable_costs := tf.variable_input_costs
          emission_factor := tf.variable_input_constraint_costs }),
       (tf.label ++ temp ++ "_bus", { variable_costs := 0 })]
      [(tf.output,
        { variable_costs := tf.variable_output_costs
          emission_factor := tf.variable_output_constraint_costs
          investment := some
            { ep_costs := tf.periodical_costs
              minimum := tf.min_investment_capacity
              maximum := QInf.val tf.max_investment_capacity
              existing := tf.existing_capacity } })]
      [(tf.output, PyNum.series (cops_abs.map some)),
       (tf.input, PyNum.scalar tf.electrical_input_conversion_factor)]
  Except.ok [busNode, heatSourceNode, transformerNode]

/-- One iteration of the row loop of `Transformers.__init__`:
not-yet-implemented and unknown transformer types are skipped with a
warning, not an error. -/
def processTransformerRow (t : TransformerRow) (data : WeatherData)
    (periods : ℕ) (char_para : String → AbsCoeffs) :
    Except BuildError (List Node) :=
  if t.active then
    if t.transformer_type == "GenericTransformer" then
      .ok [generic_transformer t]
    else if t.transformer_type == "compression_heat_transformer" then
      compression_heat_transformer t data
    else if t.transformer_type == "ExtractionTurbineCHP" then .ok []
    else if t.transformer_type == "GenericCHP" then
      .ok [genericchp_transformer t periods]
    else if t.transformer_type == "OffsetTransformer" then .ok []
    else if t.transformer_type == "absorption_heat_transformer" then
      absorption_heat_transformer t data char_para
    else .ok []
  else .ok []

/-- The row loop of `Transformers.__init__` accumulating
`nodes_transformer`. -/
def transformersLoop (data : WeatherData) (periods : ℕ)
    (char_para : String → AbsCoeffs) :
    List TransformerRow → List Node → Except BuildError (List Node)
  | [], acc => .ok acc
  | t :: rest, acc => do
      let new ← processTransformerRow t data periods char_para
      transformersLoop data periods char_para rest (acc ++ new)

/-- `Transformers.__init__`: builds all transformer rows, then appends
the collected `nodes_transformer` to the shared node list. -/
def transformersInit (rows : List TransformerRow) (data : WeatherData)
    (periods : ℕ) (char_para : String → AbsCoeffs)
    (nodes : List Node) : Except BuildError (List Node) := do
  let nodes_transformer ← transformersLoop data periods char_para rows []
  Except.ok (nodes ++ nodes_transformer)

/-! ## Storage builder (`Storages`, create_objects.py lines 1718-1973) -/

/-- One row of the storages sheet. -/
structure StorageRow where
  label : String := ""
  active : Bool := false
  storage_type : String := ""
  busLabel : String := ""
  existing_capacity : ℚ := 0
  min_investment_capacity : ℚ := 0
  max_investment_capacity : ℚ := 0
  periodical_costs : ℚ := 0
  periodical_constraint_costs : ℚ := 0
  non_convex_investment : ℚ := 0
  fix_investment_costs : ℚ := 0
  input_capacity_ratio : ℚ := 0
  output_capacity_ratio : ℚ := 0
  capacity_loss_generic : ℚ := 0
  efficiency_inflow : ℚ := 0
  efficiency_outflow : ℚ := 0
  capacity_min : ℚ := 0
  capacity_max : ℚ := 0
  variable_input_costs : ℚ := 0
  variable_output_costs : ℚ := 0
  variable_input_constraint_costs : ℚ := 0
  variable_output_constraint_costs : ℚ := 0
  diameter : ℚ := 0
  temperature_high : ℚ := 0
  temperature_low : ℚ := 0
  u_value : ℚ := 0

/-- `Storages.generic_storage`: loss rate and efficiencies read directly
from the row. -/
def generic_storage (s : StorageRow) : Node :=
  Node.storage s.label s.busLabel
    { variable_costs := s.variable_input_costs
      emission_factor := s.variable_input_constraint_costs }
    { variable_costs := s.variable_output_costs
      emission_factor := s.variable_output_constraint_costs }
    (PyNum.scalar s.capacity_loss_generic)
    (PyNum.scalar 0) (PyNum.scalar 0)
    none none
    s.efficiency_inflow s.efficiency_outflow
    s.input_capacity_ratio s.output_capacity_ratio
    { ep_costs := s.periodical_costs
      periodical_constraint_costs := s.periodical_constraint_costs
      existing := s.existing_capacity
      minimum := s.min_investment_capacity
      maximum := QInf.val s.max_investment_capacity
      nonconvex := s.non_convex_investment == 1
      offset := s.fix_investment_costs }

/-- `Storages.stratified_thermal_storage`: loss coefficients come from
the oemof.thermal `calculate_losses` precalculation (an external
collaborator, its three result series given as inputs); capacity-level
bounds are additionally set as storage operating limits. -/
def stratified_thermal_storage (s : StorageRow)
    (loss_rate fixed_losses_relative fixed_losses_absolute : List PFloat) :
    Node :=
  Node.storage s.label s.busLabel
    { variable_costs := s.variable_input_costs
      emission_factor := s.variable_input_constraint_costs }
    { variable_costs := s.variable_output_costs
      emission_factor := s.variable_output_constraint_costs }
    (PyNum.series loss_rate)
    (PyNum.series fixed_losses_relative)
    (PyNum.series fixed_losses_absolute)
    (some s.capacity_min) (some s.capacity_max)
    s.efficiency_inflow s.efficiency_outflow
    s.input_capacity_ratio s.output_capacity_ratio
    { ep_costs := s.periodical_costs
      periodical_constraint_costs := s.periodical_constraint_costs
      existing := s.existing_capacity
      minimum := s.min_investment_capacity
      maximum := QInf.val s.max_investment_capacity
      nonconvex := s.non_convex_investment == 1
      offset := s.fix_investment_costs }

/-- The losses precalculation results for stratified storages
(external). -/
structure StorageExternals where
  lossRate : List PFloat
  fixedLossesRelative : List PFloat
  fixedLossesAbsolute : List PFloat

/-- One iteration of the row loop of `Storages.__init__` (two separate
`if` tests on the storage type in the source; at most one matches). -/
def processStorageRow (s : StorageRow) (ext : StorageExternals) :
    List Node :=
  if s.active then
    (if s.storage_type == "Generic" then [generic_storage s] else []) ++
    (if s.storage_type == "Stratified" then
      [stratified_thermal_storage s ext.lossRate ext.fixedLossesRelative
        ext.fixedLossesAbsolute]
     else [])
  else []

/-- `Storages.__init__`: builds all storage rows, then appends the
collected nodes to the shared node list. -/
def storagesInit (rows : List StorageRow) (ext : StorageExternals)
    (nodes : List Node) : List Node :=
  nodes ++ rows.flatMap (fun s => processStorageRow s ext)

/-! ## Link builder (`Links`, create_objects.py lines 1976-2069) -/

/-- One row of the links sheet. -/
structure LinkRow where
  label : String := ""
  active : Bool := false
  directedness : String := ""
  bus1 : String := ""
  bus2 : String := ""
  efficiency : ℚ := 0
  periodical_costs : ℚ := 0
  periodical_constraint_costs : ℚ := 0
  min_investment_capacity : ℚ := 0
  max_investment_capacity : ℚ := 0
  existing_capacity : ℚ := 0
  non_convex_investment : ℚ := 0
  fix_investment_costs : ℚ := 0
  variable_output_costs : ℚ := 0
  variable_constraint_costs : ℚ := 0
deriving Repr, DecidableEq

/-- One iteration of the row loop of `Links.__init__`: resolves the
periodic cost by directedness (halved when undirected, raising on any
other value), then builds the link with an output flow per direction and
the directedness-dependent reverse conversion factor. -/
def processLinkRow (link : LinkRow) : Except BuildError (List Node) :=
  if link.active then do
    let ep_costs ←
      if link.directedness == "directed" then
        Except.ok link.periodical_costs
      else if link.directedness == "undirected" then
        Except.ok (link.periodical_costs / 2)
      else
        Except.error (.configuration "Problem with periodical costs")
    Except.ok
      [Node.link link.label link.bus1 link.bus2
        { variable_costs := link.variable_output_costs
          emission_factor := link.variable_constraint_costs
          investment := some
            { ep_costs := ep_costs
              periodical_constraint_costs := link.periodical_constraint_costs
              minimum := link.min_investment_capacity
              maximum := QInf.val link.max_investment_capacity
              existing := link.existing_capacity
              nonconvex := link.non_convex_investment == 1
              offset := link.fix_investment_costs } }
        { variable_costs := link.variable_output_costs
          emission_factor := link.variable_constraint_costs
          investment := some
            { ep_costs := ep_costs
              periodical_constraint_costs := link.periodical_constraint_costs
              minimum := link.min_investment_capacity
              maximum := QInf.val link.max_investment_capacity
              existing := link.existing_capacity
              nonconvex := link.non_convex_investment == 1
              offset := link.fix_investment_costs } }
        link.efficiency
        (if link.directedness == "undirected" then link.efficiency else 0)]
  else Except.ok []

/-- The row loop of `Links.__init__` (links are appended to the shared
node list directly inside the loop). -/
def linksLoop : List LinkRow → List Node → Except BuildError (List Node)
  | [], acc => .ok acc
  | link :: rest, acc => do
      let new ← processLinkRow link
      linksLoop rest (acc ++ new)

/-- `Links.__init__`. -/
def linksInit (rows : List LinkRow) (nodes : List Node) :
    Except BuildError (List Node) :=
  linksLoop rows nodes

/-! ## Derived predicates and accessors used by the verification -/

/-- The keyword arguments carry a fixed profile. -/
def hasFixProfile (a : TimeseriesArgs) : Bool := a.fix.isSome

/-- The keyword arguments carry a complete min/max profile pair. -/
def hasMinMaxPair (a : TimeseriesArgs) : Bool := a.min.isSome && a.max.isSome

/-- Exactly one of fixed profile / complete min-max pair is present. -/
def exclusiveProfile (a : TimeseriesArgs) : Bool :=
  hasFixProfile a != hasMinMaxPair a

/-- `True` on source nodes. -/
def isSourceNode : Node → Bool
  | .source _ _ _ => true
  | _ => false

/-- The profile keyword arguments of the first source node of a node
list (the node `create_source` contributed). -/
def firstSourceArgs (ns : List Node) : TimeseriesArgs :=
  match ns.find? isSourceNode with
  | some nd => nd.flowArgs
  | none => {}

/-- A value within the unit interval and not missing. -/
def clipped01 (x : PFloat) : Bool :=
  match x with
  | some q => decide (0 ≤ q) && decide (q ≤ 1)
  | none => false

/-- The annual energy (kWh) of a power profile (kW) sampled at a fixed
timestep given in seconds. -/
def energyIntegral (profile : List ℚ) (timestep : ℚ) : ℚ :=
  profile.sum * timestep / 3600

/-- The direction data of a link node. -/
def Node.linkParts : Node → Option (FlowData × FlowData × ℚ × ℚ)
  | .link _ _ _ f2 f1 cf cr => some (f2, f1, cf, cr)
  | _ => none

/-- A position of a series holding a present value inside the unit
interval. -/
def goodEntry (ys : List PFloat) (j : ℕ) : Prop :=
  ∃ q : ℚ, ys[j]? = some (some q) ∧ 0 ≤ q ∧ q ≤ 1

/-- The value the pv clipping loop leaves at the position it visits. -/
def pyClipVal (v : PFloat) : ℚ :=
  match v with
  | none => 0
  | some q => if q < 0 then 0 else if 1 < q then 1 else q

/-! ## Statement abbreviations for the claims -/

/-- Mutual exclusivity of profile arguments over every `create_source`
variant (and the timeseries sink variant). -/
def C1Statement (so : SourceRow) (ts : String → List PFloat)
    (feedin wind flat csp : List PFloat) : Prop :=
  exclusiveProfile (commodity_source so).flowArgs = true ∧
  (∀ nd, timeseries_source so ts = .ok nd →
    exclusiveProfile nd.flowArgs = true) ∧
  (∀ nd, pv_source so feedin = .ok nd →
    exclusiveProfile nd.flowArgs = true) ∧
  (∀ nd, windpower_source so wind = .ok nd →
    exclusiveProfile nd.flowArgs = true) ∧
  (∀ ns, solar_heat_source so flat csp = .ok ns →
    exclusiveProfile (firstSourceArgs ns) = true) ∧
  (∀ de : SinkRow, de.fixed = 0 ∨ de.fixed = 1 →
    exclusiveProfile (timeseries_sink de ts).flowArgs = true)

/-- Behaviour of one link row, split by directedness. -/
def C3Statement (link : LinkRow) : Prop :=
  (link.directedness = "undirected" →
    ∃ f2 f1 cf cr,
      processLinkRow link =
        .ok [Node.link link.label link.bus1 link.bus2 f2 f1 cf cr] ∧
      f2.investment.map Investment.ep_costs =
        some (link.periodical_costs / 2) ∧
      f1.investment = f2.investment ∧
      cr = link.efficiency) ∧
  (link.directedness = "directed" →
    ∃ f2 f1 cf cr,
      processLinkRow link =
        .ok [Node.link link.label link.bus1 link.bus2 f2 f1 cf cr] ∧
      f2.investment.map Investment.ep_costs = some link.periodical_costs ∧
      f1 = f2 ∧
      cr = 0)

/-- The raise of every fixed-flag-dispatching source variant, and its
propagation out of `Sources.__init__`. -/
def C4Statement (so : SourceRow) (ext : SourceExternals)
    (rest : List SourceRow) (nodes : List Node) : Prop :=
  timeseries_source so ext.timeSeries =
    .error (.configuration (so.label ++ " Error in fixed attribute")) ∧
  pv_source so ext.feedinPV =
    .error (.configuration (so.label ++ " Error in fixed attribute")) ∧
  windpower_source so ext.feedinWind =
    .error (.configuration (so.label ++ " Error in fixed attribute")) ∧
  (so.technology = "solar_thermal_flat_plate" ∨
      so.technology = "concentrated_solar_power" →
    solar_heat_source so ext.flatRaw ext.cspRaw =
      .error (.configuration (so.label ++ " Error in fixed attribute"))) ∧
  (so.active = true →
    so.technology = "timeseries" ∨ so.technology = "photovoltaic" ∨
      so.technology = "windpower" ∨
      so.technology = "solar_thermal_flat_plate" ∨
      so.technology = "concentrated_solar_power" →
    sourcesInit (so :: rest) ext nodes =
      .error (.configuration (so.label ++ " Error in fixed attribute")))

/-- The nominal value `Sinks.richardson_sink` attaches: 0.001 times the
ratio of declared annual demand to the annual energy of the simulated
load curve. -/
def richardsonNominal (de : SinkRow) (L : List ℚ) (timestep : ℚ) : ℚ :=
  (1 / 1000) * (de.annual_demand / (L.sum * timestep / (3600 * 1000)))

/-- The richardson sink rescaling identity and the occupant clamp. -/
def C6Statement (de : SinkRow) (tempRes : String) (sim : ℚ → List ℚ)
    (timestep : ℚ) : Prop :=
  ∃ nd, richardson_sink de tempRes sim = .ok nd ∧
    nd.flowArgs.nominal_value =
      some (richardsonNominal de (sim (richardsonNbOcc de.occupants))
        timestep) ∧
    energyIntegral ((sim (richardsonNbOcc de.occupants)).map
      (fun w => richardsonNominal de (sim (richardsonNbOcc de.occupants))
        timestep * w)) timestep = de.annual_demand ∧
    (∀ n : ℚ, 5 < n → richardsonNbOcc n = 5) ∧
    (∀ n : ℚ, n ≤ 5 → richardsonNbOcc n = n)

/-- In chiller mode with an air heat source, the high-temperature series
avoids the configured low temperature, so the temperature differential
of the COP computation is never zero. -/
def C7Statement (tf : TransformerRow) (data : WeatherData) : Prop :=
  chtWeatherTemp tf data =
    .ok (chillerAirTempHigh data.temperature tf.temperature_low) ∧
  ∀ x ∈ chillerAirTempHigh data.temperature tf.temperature_low,
    x ≠ tf.temperature_low ∧
    (x + 27315 / 100) - (tf.temperature_low + 27315 / 100) ≠ 0

/-! ## Concrete fixtures for witnesses and counterexamples -/

/-- An active bus row with excess and without shortage. -/
def busRowW : BusRow :=
  { label := "b1", active := true, excess := true, shortage := false
    excess_costs := 2, shortage_costs := 3
    excess_constraint_costs := 4, shortage_constraint_costs := 5 }

/-- An active bus row labeled A without shadow components. -/
def busRowA1 : BusRow := { label := "A", active := true }

/-- A second active bus row with the same label A, with excess. -/
def busRowA2 : BusRow := { label := "A", active := true, excess := true }

/-- An active standard-load-profile demand row with `fixed = 0`. -/
def sinkRowH0 : SinkRow :=
  { label := "d1", active := true, fixed := 0, input := "b1"
    load_profile := "h0", annual_demand := 1000 }

/-- An active fixed timeseries source row. -/
def sourceRowTs : SourceRow :=
  { label := "s1", active := true, technology := "timeseries"
    input := "x", output := "b1", fixed := 1 }

/-- An active timeseries source row with an invalid fixed flag. -/
def sourceRowBad : SourceRow :=
  { label := "s2", active := true, technology := "timeseries"
    input := "x", output := "b1", fixed := 2 }

/-- An active fixed flat-plate solar thermal source row. -/
def sourceRowSolar : SourceRow :=
  { label := "sol", active := true
    technology := "solar_thermal_flat_plate"
    input := "elec", output := "heat", fixed := 1
    conversion_factor_solar := 1 }

/-- An active fixed photovoltaic source row. -/
def sourceRowPV : SourceRow :=
  { label := "pv1", active := true, technology := "photovoltaic"
    input := "x", output := "b1", fixed := 1 }

/-- An active source row with an unrecognized technology. -/
def sourceRowFoo : SourceRow :=
  { label := "s3", active := true, technology := "foo"
    input := "x", output := "b1", fixed := 1 }

/-- Concrete external inputs for the source builder. -/
def sourceExtW : SourceExternals :=
  { feedinPV := [some 2, none]
    feedinWind := [some 1]
    flatRaw := [some 500]
    cspRaw := []
    timeSeries := fun _ => [some 1] }

/-- Concrete external inputs for the sink builder. -/
def sinkExtW : SinkExternals :=
  { timeSeries := fun _ => [some 1]
    slpDemand := fun _ => [some 1]
    tempResolution := "h"
    richardsonSim := fun _ => [2, 4] }

/-- Concrete external inputs for the storage builder. -/
def storageExtW : StorageExternals :=
  { lossRate := [], fixedLossesRelative := [], fixedLossesAbsolute := [] }

/-- Concrete absorption-chiller coefficient catalog. -/
def charParaW : String → AbsCoeffs := fun _ => {}

/-- An active richardson demand row with more than 5 occupants. -/
def sinkRowRich : SinkRow :=
  { label := "r1", active := true, fixed := 1, input := "b1"
    load_profile := "richardson", annual_demand := 7, occupants := 7 }

/-- A constant stochastic load simulation. -/
def richSimW : ℚ → List ℚ := fun _ => [2, 4]

/-- An active undirected link row. -/
def linkRowU : LinkRow :=
  { label := "l1", active := true, directedness := "undirected"
    bus1 := "a", bus2 := "b", efficiency := 9 / 10
    periodical_costs := 10, min_investment_capacity := 1
    max_investment_capacity := 50, existing_capacity := 3
    non_convex_investment := 1, fix_investment_costs := 8 }

/-- An active directed link row. -/
def linkRowD : LinkRow :=
  { label := "l2", active := true, directedness := "directed"
    bus1 := "a", bus2 := "b", efficiency := 9 / 10
    periodical_costs := 10 }

/-- An active compression chiller row with an air heat source whose low
temperature is 20 degrees. -/
def tfRowC : TransformerRow :=
  { label := "t1", active := true
    transformer_type := "compression_heat_transformer"
    mode := "chiller", heat_source := "Air"
    input := "elec", output := "cold"
    efficiency := 1, temperature_low := 20, quality_grade := 1 / 2 }

/-- Weather data whose first ambient temperature is below the configured
low temperature of `tfRowC`. -/
def weatherC : WeatherData :=
  { temperature := [19, 20], ground_temp := [], groundwater_temp := []
    water_temp := [] }

/-! ## Shared lemmas -/

theorem exceptOkBind {ε α β : Type} (x : α) (f : α → Except ε β) :
    (Except.ok x : Except ε α) >>= f = f x := rfl

theorem exceptErrorBind {ε α β : Type} (e : ε) (f : α → Except ε β) :
    (Except.error e : Except ε α) >>= f = Except.error e := rfl

theorem create_source_flowArgs (so : SourceRow) (a : TimeseriesArgs)
    (out : Option String) : (create_source so a out).flowArgs = a := rfl

theorem create_sink_flowArgs (de : SinkRow) (a : TimeseriesArgs) :
    (create_sink de a).flowArgs = a := rfl

theorem getDIdx (xs : List PFloat) (i : ℕ) (h : i < xs.length) :
    xs[i]? = some (xs.getD i none) := by
  rw [List.getD_eq_getElem?_getD, List.getElem?_eq_getElem h]
  rfl

theorem fillna0_getElem (xs : List PFloat) (i : ℕ) :
    (fillna0 xs)[i]? = xs[i]?.map (fun x => some (x.getD 0)) := by
  simp [fillna0]

theorem pvClipStep_length (xs : List PFloat) (i : ℕ) :
    (pvClipStep xs i).length = xs.length := by
  unfold pvClipStep
  have hlen : ∀ l : List PFloat, l.length = xs.length →
      (fillna0 l).length = xs.length := by
    intro l hl
    simpa [fillna0] using hl
  apply hlen
  dsimp only
  split_ifs <;> simp

theorem pvClipStep_getElem_self (xs : List PFloat) (i : ℕ)
    (h : i < xs.length) :
    (pvClipStep xs i)[i]? = some (some (pyClipVal (xs.getD i none))) := by
  unfold pvClipStep
  rcases hv : xs.getD i none with _ | q
  · -- missing entry: comparisons with NaN are false, fillna writes 0
    have hlt : pyLtC none 0 = false := rfl
    have hgt : pyGtC none 1 = false := rfl
    rw [hlt, if_neg (by simp)]
    dsimp only
    rw [hv, hgt, if_neg (by simp)]
    rw [fillna0_getElem, getDIdx xs i h, hv]
    rfl
  · have hgd0 : (xs.set i (some 0)).getD i none = some 0 := by
      rw [List.getD_eq_getElem?_getD, List.getElem?_set_self h]
      rfl
    have hgd1 : (xs.set i (some 1)).getD i none = some 1 := by
      rw [List.getD_eq_getElem?_getD, List.getElem?_set_self h]
      rfl
    rcases lt_or_le q 0 with hq0 | hq0
    · -- negative value: set to 0, second test false
      have hset : i < (xs.set i (some 0)).length := by simpa using h
      have hlt : pyLtC (some q) 0 = true := by simp [pyLtC, hq0]
      rw [hlt, if_pos rfl]
      dsimp only
      rw [hgd0]
      have hgt : pyGtC (some 0) 1 = false := by norm_num [pyGtC]
      rw [hgt, if_neg (by simp)]
      rw [fillna0_getElem, getDIdx _ i hset, hgd0]
      simp [pyClipVal, hq0]
    · rcases lt_or_le 1 q with hq1 | hq1
      · -- value above one: first test false, set to 1
        have hset : i < (xs.set i (some 1)).length := by simpa using h
        have hlt : pyLtC (some q) 0 = false := by
          simp [pyLtC, not_lt.mpr hq0]
        have hgt : pyGtC (some q) 1 = true := by simp [pyGtC, hq1]
        rw [hlt, if_neg (by simp)]
        dsimp only
        rw [hv, hgt, if_pos rfl]
        rw [fillna0_getElem, getDIdx _ i hset, hgd1]
        simp [pyClipVal, not_lt.mpr hq0, hq1]
      · -- value already inside the unit interval: unchanged
        have hlt : pyLtC (some q) 0 = false := by
          simp [pyLtC, not_lt.mpr hq0]
        have hgt : pyGtC (some q) 1 = false := by
          simp [pyGtC, not_lt.mpr hq1]
        rw [hlt, if_neg (by simp)]
        dsimp only
        rw [hv, hgt, if_neg (by simp)]
        rw [fillna0_getElem, getDIdx xs i h, hv]
        simp [pyClipVal, not_lt.mpr hq0, not_lt.mpr hq1]

theorem pyClipVal_mem (v : PFloat) : 0 ≤ pyClipVal v ∧ pyClipVal v ≤ 1 := by
  rcases v with _ | q
  · norm_num [pyClipVal]
  · simp only [pyClipVal]
    split_ifs with h1 h2
    · norm_num
    · norm_num
    · exact ⟨not_lt.mp h1, not_lt.mp h2⟩

theorem pvClipStep_good_preserve (xs : List PFloat) (i j : ℕ)
    (hg : goodEntry xs j) : goodEntry (pvClipStep xs i) j := by
  by_cases hij : j = i
  · subst hij
    have hj : j < xs.length := by
      obtain ⟨q, hq, _, _⟩ := hg
      obtain ⟨hlt, _⟩ := List.getElem?_eq_some_iff.mp hq
      exact hlt
    exact ⟨pyClipVal (xs.getD j none), pvClipStep_getElem_self xs j hj,
      (pyClipVal_mem _).1, (pyClipVal_mem _).2⟩
  · obtain ⟨q, hq, h0, h1⟩ := hg
    refine ⟨q, ?_, h0, h1⟩
    have hstep : (pvClipStep xs i)[j]? =
        xs[j]?.map (fun x => some (x.getD 0)) := by
      unfold pvClipStep
      dsimp only
      rw [fillna0_getElem]
      congr 1
      split_ifs <;> simp [List.getElem?_set_ne (fun h => hij h.symm)]
    rw [hstep, hq]
    rfl

theorem pvFoldl_length (idxs : List ℕ) : ∀ ys : List PFloat,
    (idxs.foldl pvClipStep ys).length = ys.length := by
  induction idxs with
  | nil => intro ys; rfl
  | cons i rest ih =>
    intro ys
    rw [List.foldl_cons, ih, pvClipStep_length]

theorem pvFoldl_preserve (idxs : List ℕ) : ∀ (ys : List PFloat) (j : ℕ),
    goodEntry ys j → goodEntry (idxs.foldl pvClipStep ys) j := by
  induction idxs with
  | nil => intro ys j h; exact h
  | cons i rest ih =>
    intro ys j h
    rw [List.foldl_cons]
    exact ih _ j (pvClipStep_good_preserve ys i j h)

theorem pvFoldl_good (idxs : List ℕ) : ∀ ys : List PFloat,
    (∀ i ∈ idxs, i < ys.length) →
    ∀ j ∈ idxs, goodEntry (idxs.foldl pvClipStep ys) j := by
  induction idxs with
  | nil => intro ys _ j hj; cases hj
  | cons i rest ih =>
    intro ys hb j hj
    rw [List.foldl_cons]
    rcases List.mem_cons.mp hj with rfl | hjr
    · refine pvFoldl_preserve rest _ j ?_
      exact ⟨pyClipVal (ys.getD j none),
        pvClipStep_getElem_self ys j (hb j (List.mem_cons_self _ _)),
        (pyClipVal_mem _).1, (pyClipVal_mem _).2⟩
    · exact ih _
        (fun k hk => by
          rw [pvClipStep_length]
          exact hb k (List.mem_cons_of_mem _ hk))
        j hjr

theorem pvPrepare_mem (feedin : List PFloat) :
    ∀ x ∈ pvPrepare feedin, ∃ q : ℚ, x = some q ∧ 0 ≤ q ∧ q ≤ 1 := by
  intro x hx
  obtain ⟨k, hk⟩ := List.mem_iff_getElem?.mp hx
  have hklen : k < (pvPrepare feedin).length :=
    (List.getElem?_eq_some_iff.mp hk).1
  have hlen : (pvPrepare feedin).length = feedin.length :=
    pvFoldl_length _ feedin
  have hk' : k < feedin.length := hlen ▸ hklen
  obtain ⟨q, hq, h0, h1⟩ := pvFoldl_good (List.range feedin.length) feedin
    (fun i hi => List.mem_range.mp hi) k (List.mem_range.mpr hk')
  unfold pvPrepare at hk
  rw [hq] at hk
  obtain rfl : some q = x := (Option.some_inj).mp hk
  exact ⟨q, rfl, h0, h1⟩

theorem sum_map_mul (c : ℚ) (L : List ℚ) :
    (L.map (fun w => c * w)).sum = c * L.sum := by
  induction L with
  | nil => simp
  | cons a t ih => simp [ih, mul_add]

theorem busesStep_countBus (busd : List (String × String))
    (ns : List Node) (r : BusRow) (l : String) :
    ((busesStep (busd, ns) r).2.countP (Node.isBusLabeled l)) =
      ns.countP (Node.isBusLabeled l) +
      (if r.active && r.label == l then 1 else 0) := by
  cases hA : r.active <;> cases hE : r.excess <;> cases hS : r.shortage <;>
    simp [busesStep, hA, hE, hS, List.countP_append, List.countP_cons,
      Node.isBusLabeled, Node.isSinkOn, Node.isSourceOn]

theorem busesStep_snd_append (busd : List (String × String))
    (ns : List Node) (b : BusRow) :
    ∃ new, (busesStep (busd, ns) b).2 = ns ++ new := by
  cases hA : b.active with
  | false => exact ⟨[], by simp [busesStep, hA]⟩
  | true =>
    cases hE : b.excess with
    | false =>
      cases hS : b.shortage with
      | false => exact ⟨[Node.bus b.label], by simp [busesStep, hA, hE, hS]⟩
      | true =>
        exact ⟨[Node.bus b.label,
          Node.source (b.label ++ "_shortage") b.label
            { variable_costs := b.shortage_costs
              emission_factor := b.shortage_constraint_costs }],
          by simp [busesStep, hA, hE, hS]⟩
    | true =>
      cases hS : b.shortage with
      | false =>
        exact ⟨[Node.bus b.label,
          Node.sink (b.label ++ "_excess") b.label
            { variable_costs := b.excess_costs
              emission_factor := b.excess_constraint_costs }],
          by simp [busesStep, hA, hE, hS]⟩
      | true =>
        exact ⟨[Node.bus b.label,
          Node.sink (b.label ++ "_excess") b.label
            { variable_costs := b.excess_costs
              emission_factor := b.excess_constraint_costs },
          Node.source (b.label ++ "_shortage") b.label
            { variable_costs := b.shortage_costs
              emission_factor := b.shortage_constraint_costs }],
          by simp [busesStep, hA, hE, hS]⟩

theorem busesFoldl_append : ∀ (rows : List BusRow)
    (busd : List (String × String)) (ns : List Node),
    ∃ new, (rows.foldl busesStep (busd, ns)).2 = ns ++ new := by
  intro rows
  induction rows with
  | nil => intro busd ns; exact ⟨[], by simp⟩
  | cons r rest ih =>
    intro busd ns
    rw [List.foldl_cons]
    obtain ⟨n1, hn1⟩ := busesStep_snd_append busd ns r
    rcases hstep : busesStep (busd, ns) r with ⟨busd2, ns2⟩
    rw [hstep] at hn1
    have hns : ns2 = ns ++ n1 := hn1
    obtain ⟨n2, hn2⟩ := ih busd2 ns2
    exact ⟨n1 ++ n2, by rw [hn2, hns, List.append_assoc]⟩

theorem linksLoop_append : ∀ (rows : List LinkRow) (acc out : List Node),
    linksLoop rows acc = .ok out → ∃ new, out = acc ++ new := by
  intro rows
  induction rows with
  | nil =>
    intro acc out h
    simp only [linksLoop] at h
    obtain rfl : acc = out := by
      injection h
    exact ⟨[], by simp⟩
  | cons r rest ih =>
    intro acc out h
    simp only [linksLoop] at h
    cases hr : processLinkRow r with
    | error e =>
      rw [hr, exceptErrorBind] at h
      cases h
    | ok n1 =>
      rw [hr, exceptOkBind] at h
      obtain ⟨n2, hn2⟩ := ih (acc ++ n1) out h
      exact ⟨n1 ++ n2, by rw [hn2, List.append_assoc]⟩

/-! ## Claims -/

/-- C1 (amended): for every source row whose fixed flag is 0 or 1, the
flow attachment handed to `create_source` carries exactly one of a fixed
profile or a complete min/max pair — never both, never neither — in
every source variant; among the sink variants this holds for the
timeseries sink, while the unfixed, slp and richardson sinks violate it
(see the counterexample). -/
theorem C1_source_profile_exclusivity :
    ∀ (so : SourceRow) (ts : String → List PFloat)
    (feedin wind flat csp : List PFloat),
    so.fixed = 0 ∨ so.fixed = 1 → C1Statement so ts feedin wind flat csp := by
  intro so ts feedin wind flat csp hf
  refine ⟨rfl, ?_, ?_, ?_, ?_, ?_⟩
  · intro nd hnd
    rcases hf with h | h <;>
      · simp [timeseries_source, h, exceptOkBind] at hnd
        subst hnd
        rfl
  · intro nd hnd
    rcases hf with h | h <;>
      · simp [pv_source, h, exceptOkBind] at hnd
        subst hnd
        rfl
  · intro nd hnd
    rcases hf with h | h <;>
      · simp [windpower_source, h, exceptOkBind] at hnd
        subst hnd
        rfl
  · intro ns hns
    cases hcol : solarCollectorsHeat so flat csp with
    | error e =>
      simp [solar_heat_source, hcol, exceptOkBind, exceptErrorBind] at hns
    | ok cols =>
      rcases hf with h | h <;>
        · simp [solar_heat_source, hcol, h, exceptOkBind,
            exceptErrorBind] at hns
          subst hns
          rfl
  · intro de hde
    rcases hde with h | h
    · have : (0 : ℚ) ≠ 1 := by norm_num
      simp [timeseries_sink, h, this]
      rfl
    · have : (1 : ℚ) ≠ 0 := by norm_num
      simp [timeseries_sink, h, this]
      rfl

/-- C1 witness: the exclusivity at a concrete fixed timeseries source
row. -/
theorem C1_source_profile_exclusivity_witness :
    C1Statement sourceRowTs (fun _ => [some 1]) [some 2] [some 1]
      [some 500] [] :=
  C1_source_profile_exclusivity sourceRowTs (fun _ => [some 1]) [some 2]
    [some 1] [some 500] [] (Or.inr rfl)

/-- C1 counterexample: an active slp sink row with fixed flag 0 hands
`create_sink` an attachment with neither a fixed profile nor a complete
min/max pair (only max is set), refuting the claim for sinks. -/
theorem C1_sink_profile_counterexample :
    sinkRowH0.fixed = 0 ∧
    hasFixProfile (slp_sink sinkRowH0 [some 1]).flowArgs = false ∧
    hasMinMaxPair (slp_sink sinkRowH0 [some 1]).flowArgs = false :=
  ⟨rfl, rfl, rfl⟩

/-- C2: processing one bus row adds, when the row is active, exactly one
bus with the row label, an excess sink attached to that bus exactly when
the excess flag is set, and a shortage source attached to that bus
exactly when the shortage flag is set; an inactive row adds nothing. -/
theorem C2_bus_row_construction :
    ∀ (acc : List (String × String) × List Node) (b : BusRow),
    ∃ new, (busesStep acc b).2 = acc.2 ++ new ∧
      (b.active = true →
        new.countP (Node.isBusLabeled b.label) = 1 ∧
        new.countP (Node.isSinkOn (b.label ++ "_excess") b.label) =
          (if b.excess then 1 else 0) ∧
        new.countP (Node.isSourceOn (b.label ++ "_shortage") b.label) =
          (if b.shortage then 1 else 0)) ∧
      (b.active = false → new = []) := by
  intro acc b
  obtain ⟨busd, nodes⟩ := acc
  cases hA : b.active with
  | false =>
    refine ⟨[], by simp [busesStep, hA], ?_, fun _ => rfl⟩
    intro h
    simp [hA] at h
  | true =>
    cases hE : b.excess with
    | false =>
      cases hS : b.shortage with
      | false =>
        refine ⟨[Node.bus b.label], by simp [busesStep, hA, hE, hS], ?_, ?_⟩
        · intro _
          refine ⟨?_, ?_, ?_⟩ <;>
            simp [List.countP_cons, Node.isBusLabeled, Node.isSinkOn,
              Node.isSourceOn, hE, hS]
        · intro h; simp [hA] at h
      | true =>
        refine ⟨[Node.bus b.label,
          Node.source (b.label ++ "_shortage") b.label
            { variable_costs := b.shortage_costs
              emission_factor := b.shortage_constraint_costs }],
          by simp [busesStep, hA, hE, hS], ?_, ?_⟩
        · intro _
          refine ⟨?_, ?_, ?_⟩ <;>
            simp [List.countP_cons, Node.isBusLabeled, Node.isSinkOn,
              Node.isSourceOn, hE, hS]
        · intro h; simp [hA] at h
    | true =>
      cases hS : b.shortage with
      | false =>
        refine ⟨[Node.bus b.label,
          Node.sink (b.label ++ "_excess") b.label
            { variable_costs := b.excess_costs
              emission_factor := b.excess_constraint_costs }],
          by simp [busesStep, hA, hE, hS], ?_, ?_⟩
        · intro _
          refine ⟨?_, ?_, ?_⟩ <;>
            simp [List.countP_cons, Node.isBusLabeled, Node.isSinkOn,
              Node.isSourceOn, hE, hS]
        · intro h; simp [hA] at h
      | true =>
        refine ⟨[Node.bus b.label,
          Node.sink (b.label ++ "_excess") b.label
            { variable_costs := b.excess_costs
              emission_factor := b.excess_constraint_costs },
          Node.source (b.label ++ "_shortage") b.label
            { variable_costs := b.shortage_costs
              emission_factor := b.shortage_constraint_costs }],
          by simp [busesStep, hA, hE, hS], ?_, ?_⟩
        · intro _
          refine ⟨?_, ?_, ?_⟩ <;>
            simp [List.countP_cons, Node.isBusLabeled, Node.isSinkOn,
              Node.isSourceOn, hE, hS]
        · intro h; simp [hA] at h

/-- C2 witness: the per-row bus construction at a concrete active row
with excess and without shortage. -/
theorem C2_bus_row_construction_witness :
    ∃ new, (busesStep (([], []) : List (String × String) × List Node)
        busRowW).2 = ([] : List Node) ++ new ∧
      (busRowW.active = true →
        new.countP (Node.isBusLabeled busRowW.label) = 1 ∧
        new.countP (Node.isSinkOn (busRowW.label ++ "_excess")
          busRowW.label) = (if busRowW.excess then 1 else 0) ∧
        new.countP (Node.isSourceOn (busRowW.label ++ "_shortage")
          busRowW.label) = (if busRowW.shortage then 1 else 0)) ∧
      (busRowW.active = false → new = []) :=
  C2_bus_row_construction ([], []) busRowW

/-- C3: for an active link row, in undirected mode both investment
descriptors carry the halved periodic cost and the reverse conversion
factor equals the forward efficiency; in directed mode the reverse
conversion factor is 0, the periodic cost is not halved, and the reverse
flow (investment descriptor included) equals the forward one. -/
theorem C3_link_directedness :
    ∀ link : LinkRow, link.active = true → C3Statement link := by
  intro link hA
  constructor
  · intro hdir
    have h : processLinkRow link = .ok [Node.link link.label link.bus1
        link.bus2
        { variable_costs := link.variable_output_costs
          emission_factor := link.variable_constraint_costs
          investment := some
            { ep_costs := link.periodical_costs / 2
              periodical_constraint_costs := link.periodical_constraint_costs
              minimum := link.min_investment_capacity
              maximum := QInf.val link.max_investment_capacity
              existing := link.existing_capacity
              nonconvex := link.non_convex_investment == 1
              offset := link.fix_investment_costs } }
        { variable_costs := link.variable_output_costs
          emission_factor := link.variable_constraint_costs
          investment := some
            { ep_costs := link.periodical_costs / 2
              periodical_constraint_costs := link.periodical_constraint_costs
              minimum := link.min_investment_capacity
              maximum := QInf.val link.max_investment_capacity
              existing := link.existing_capacity
              nonconvex := link.non_convex_investment == 1
              offset := link.fix_investment_costs } }
        link.efficiency link.efficiency] := by
      simp [processLinkRow, hA, hdir]
      rfl
    exact ⟨_, _, _, _, h, rfl, rfl, rfl⟩
  · intro hdir
    have h : processLinkRow link = .ok [Node.link link.label link.bus1
        link.bus2
        { variable_costs := link.variable_output_costs
          emission_factor := link.variable_constraint_costs
          investment := some
            { ep_costs := link.periodical_costs
              periodical_constraint_costs := link.periodical_constraint_costs
              minimum := link.min_investment_capacity
              maximum := QInf.val link.max_investment_capacity
              existing := link.existing_capacity
              nonconvex := link.non_convex_investment == 1
              offset := link.fix_investment_costs } }
        { variable_costs := link.variable_output_costs
          emission_factor := link.variable_constraint_costs
          investment := some
            { ep_costs := link.periodical_costs
              periodical_constraint_costs := link.periodical_constraint_costs
              minimum := link.min_investment_capacity
              maximum := QInf.val link.max_investment_capacity
              existing := link.existing_capacity
              nonconvex := link.non_convex_investment == 1
              offset := link.fix_investment_costs } }
        link.efficiency 0] := by
      simp [processLinkRow, hA, hdir]
      rfl
    exact ⟨_, _, _, _, h, rfl, rfl, rfl⟩

/-- C3 witness: the link behaviour at one concrete undirected and one
concrete directed row. -/
theorem C3_link_directedness_witness :
    C3Statement linkRowU ∧ C3Statement linkRowD :=
  ⟨C3_link_directedness linkRowU rfl, C3_link_directedness linkRowD rfl⟩

/-- C4: a source row of the timeseries, photovoltaic, windpower or
solar-thermal variant whose fixed flag is neither 0 nor 1 raises the
configuration error naming the row label (the `SystemError` of the
source, named `ConfigurationError` by the spec taxonomy), and the error
propagates out of `Sources.__init__`, aborting the build. -/
theorem C4_fixed_flag_error : ∀ (so : SourceRow) (ext : SourceExternals)
    (rest : List SourceRow) (nodes : List Node),
    so.fixed ≠ 0 → so.fixed ≠ 1 → C4Statement so ext rest nodes := by
  intro so ext rest nodes h0 h1
  have hts : timeseries_source so ext.timeSeries =
      .error (.configuration (so.label ++ " Error in fixed attribute")) := by
    simp [timeseries_source, h0, h1]
    rfl
  have hpv : pv_source so ext.feedinPV =
      .error (.configuration (so.label ++ " Error in fixed attribute")) := by
    simp [pv_source, h0, h1]
    rfl
  have hwind : windpower_source so ext.feedinWind =
      .error (.configuration (so.label ++ " Error in fixed attribute")) := by
    simp [windpower_source, h0, h1]
    rfl
  have hsolar : so.technology = "solar_thermal_flat_plate" ∨
      so.technology = "concentrated_solar_power" →
      solar_heat_source so ext.flatRaw ext.cspRaw =
        .error (.configuration
          (so.label ++ " Error in fixed attribute")) := by
    intro htech
    rcases htech with h | h <;>
      · simp [solar_heat_source, solarCollectorsHeat, h, h0, h1]
        rfl
  refine ⟨hts, hpv, hwind, hsolar, ?_⟩
  intro hAct htech
  have hrow : processSourceRow so ext =
      .error (.configuration (so.label ++ " Error in fixed attribute")) := by
    rcases htech with h | h | h | h | h
    · rw [processSourceRow, h, if_pos hAct]
      have hd : sourcesDispatch "timeseries" = .timeseries := rfl
      rw [hd, hts]
      rfl
    · rw [processSourceRow, h, if_pos hAct]
      have hd : sourcesDispatch "photovoltaic" = .photovoltaic := rfl
      rw [hd, hpv]
      rfl
    · rw [processSourceRow, h, if_pos hAct]
      have hd : sourcesDispatch "windpower" = .windpower := rfl
      rw [hd, hwind]
      rfl
    · rw [processSourceRow, h, if_pos hAct]
      have hd : sourcesDispatch "solar_thermal_flat_plate" = .solarHeat :=
        rfl
      rw [hd, hsolar (Or.inl h)]
    · rw [processSourceRow, h, if_pos hAct]
      have hd : sourcesDispatch "concentrated_solar_power" = .solarHeat :=
        rfl
      rw [hd, hsolar (Or.inr h)]
  show sourcesInit (so :: rest) ext nodes = _
  rw [sourcesInit]
  show (do
    let nodes_sources ← sourcesLoop ext (so :: rest) []
    Except.ok (nodes ++ nodes_sources)) = _
  rw [sourcesLoop, hrow]
  rfl

/-- C4 witness: the raise and the abort at a concrete timeseries row
whose fixed flag is 2. -/
theorem C4_fixed_flag_error_witness : C4Statement sourceRowBad sourceExtW [] [] :=
  C4_fixed_flag_error sourceRowBad sourceExtW [] []
    (by norm_num [sourceRowBad]) (by norm_num [sourceRowBad])

/-- C5 (amended): every entry of the photovoltaic feed-in series passed
to `create_source` is present and inside the unit interval (negatives
set to 0, values above 1 set to 1, missing values replaced by 0), and
`pv_source` passes exactly the prepared series; the solar-thermal
collector-heat series is passed to `create_source` without clipping or
NaN replacement, only divided by 1000. -/
theorem C5_feedin_clipping :
    (∀ feedin : List PFloat, ∀ x ∈ pvPrepare feedin,
      ∃ q : ℚ, x = some q ∧ 0 ≤ q ∧ q ≤ 1) ∧
    (∀ (so : SourceRow) (feedin : List PFloat), so.fixed = 1 →
      pv_source so feedin =
        .ok (create_source so
          { fix := some (.series (pvPrepare feedin)) })) ∧
    (∀ (so : SourceRow) (feedin : List PFloat), so.fixed = 0 →
      pv_source so feedin =
        .ok (create_source so
          { min := some (.scalar 0)
            max := some (.series (pvPrepare feedin)) })) ∧
    (∀ (so : SourceRow) (flat csp : List PFloat),
      so.technology = "solar_thermal_flat_plate" → so.fixed = 1 →
      ∃ ns, solar_heat_source so flat csp = .ok ns ∧
        firstSourceArgs ns =
          { fix := some (.series (divSeries1000 flat)) }) := by
  refine ⟨pvPrepare_mem, ?_, ?_, ?_⟩
  · intro so feedin h1
    simp [pv_source, h1, exceptOkBind]
  · intro so feedin h0
    simp [pv_source, h0, exceptOkBind]
  · intro so flat csp ht h1
    have hmain : solar_heat_source so flat csp =
        .ok [Node.bus (so.label ++ "_bus"),
          create_source so
            { fix := some (.series (divSeries1000 flat)) }
            (some (so.label ++ "_bus")),
          Node.transformer (so.label ++ "_collector")
            [(so.label ++ "_bus", { variable_costs := 0 }),
             (so.input, { variable_costs := 0 })]
            [(so.output, { variable_costs := 0 })]
            [(so.label ++ "_bus", .scalar 1),
             (so.input, .scalar
               (so.electric_consumption * (1 - so.peripheral_losses))),
             (so.output, .scalar (1 - so.peripheral_losses))]] := by
      simp [solar_heat_source, solarCollectorsHeat, ht, h1, exceptOkBind]
    exact ⟨_, hmain, rfl⟩

/-- C5 witness: the clipping at a concrete feed-in series holding a
value above one and a missing value. -/
theorem C5_feedin_clipping_witness :
    pv_source sourceRowPV [some 5, none] =
      .ok (create_source sourceRowPV
        { fix := some (.series (pvPrepare [some 5, none])) }) ∧
    (∀ x ∈ pvPrepare [some 5, none],
      ∃ q : ℚ, x = some q ∧ 0 ≤ q ∧ q ≤ 1) :=
  ⟨C5_feedin_clipping.2.1 sourceRowPV [some 5, none] rfl,
   C5_feedin_clipping.1 [some 5, none]⟩

/-- C5 counterexample: a solar-thermal source passes a collector-heat
series containing the value 2 (above the unit interval) and a missing
entry straight to `create_source`: the claimed clipping does not happen
on the solar-thermal path. -/
theorem C5_solar_unclipped_counterexample :
    (solar_heat_source sourceRowSolar [some 2000, none] []).toOption.map
        firstSourceArgs =
      some { fix := some (PyNum.series [some 2, none]) } ∧
    ¬ ((2 : ℚ) ≤ 1) ∧
    ((none : PFloat) ∈ [(some (2 : ℚ) : PFloat), none]) := by
  have hdiv : divSeries1000 [some 2000, none] = [some 2, none] := by
    norm_num [divSeries1000]
  have hmain : solar_heat_source sourceRowSolar [some 2000, none] [] =
      .ok [Node.bus (sourceRowSolar.label ++ "_bus"),
        create_source sourceRowSolar
          { fix := some (.series [some 2, none]) }
          (some (sourceRowSolar.label ++ "_bus")),
        Node.transformer (sourceRowSolar.label ++ "_collector")
          [(sourceRowSolar.label ++ "_bus", { variable_costs := 0 }),
           (sourceRowSolar.input, { variable_costs := 0 })]
          [(sourceRowSolar.output, { variable_costs := 0 })]
          [(sourceRowSolar.label ++ "_bus", .scalar 1),
           (sourceRowSolar.input, .scalar
             (sourceRowSolar.electric_consumption *
               (1 - sourceRowSolar.peripheral_losses))),
           (sourceRowSolar.output, .scalar
             (1 - sourceRowSolar.peripheral_losses))]] := by
    have ht : sourceRowSolar.technology = "solar_thermal_flat_plate" := rfl
    have h1 : sourceRowSolar.fixed = 1 := rfl
    simp [solar_heat_source, solarCollectorsHeat, ht, h1, hdiv,
      exceptOkBind]
  refine ⟨?_, by norm_num, by simp⟩
  rw [hmain]
  rfl

/-- C6: the richardson sink attaches the simulated load curve with
nominal value 0.001 times annual demand over simulated annual energy, so
the energy integral of the rescaled profile equals the declared annual
demand exactly in exact arithmetic; occupant counts above 5 are clamped
to 5, never rejected. -/
theorem C6_richardson_rescaling : ∀ (de : SinkRow) (tempRes : String)
    (sim : ℚ → List ℚ) (timestep : ℚ),
    richardsonTimestep tempRes = .ok timestep →
    (sim (richardsonNbOcc de.occupants)).sum * timestep ≠ 0 →
    C6Statement de tempRes sim timestep := by
  intro de tempRes sim timestep hts hne
  obtain ⟨h1, h2⟩ := mul_ne_zero_iff.mp hne
  have hmain : richardson_sink de tempRes sim =
      .ok (create_sink de (
        if de.fixed = 1 then
          { fix := some (.series
              ((sim (richardsonNbOcc de.occupants)).map some))
            nominal_value := some ((1 / 1000) * (de.annual_demand /
              ((sim (richardsonNbOcc de.occupants)).sum * timestep /
                (3600 * 1000)))) }
        else if de.fixed = 0 then
          { max := some (.series
              ((sim (richardsonNbOcc de.occupants)).map some))
            nominal_value := some ((1 / 1000) * (de.annual_demand /
              ((sim (richardsonNbOcc de.occupants)).sum * timestep /
                (3600 * 1000)))) }
        else
          { nominal_value := some ((1 / 1000) * (de.annual_demand /
              ((sim (richardsonNbOcc de.occupants)).sum * timestep /
                (3600 * 1000)))) })) := by
    unfold richardson_sink
    rw [hts, exceptOkBind]
  refine ⟨_, hmain, ?_, ?_, ?_, ?_⟩
  · rw [create_sink_flowArgs]
    split_ifs <;> rfl
  · unfold energyIntegral richardsonNominal
    rw [sum_map_mul]
    field_simp
    ring
  · intro n hn
    unfold richardsonNbOcc
    rw [if_pos hn]
  · intro n hn
    unfold richardsonNbOcc
    rw [if_neg (not_lt.mpr hn)]

/-- C6 witness: the rescaling identity at a concrete richardson row with
7 occupants (clamped to 5), hourly resolution and load curve [2, 4]. -/
theorem C6_richardson_rescaling_witness :
    C6Statement sinkRowRich "h" richSimW 3600 :=
  C6_richardson_rescaling sinkRowRich "h" richSimW 3600 rfl
    (by norm_num [richSimW])

/-- C7 (amended): for a compression chiller with an air heat source, the
high-side series used by the COP calculation replaces entries equal to
the configured low temperature by the low temperature plus 0.1 (entries
above or below stay unchanged, so the series is not floored), hence at
every timestep the high-side temperature differs from the low
temperature and the temperature differential of the COP computation is
nonzero. -/
theorem C7_chiller_temp_difference : ∀ (tf : TransformerRow)
    (data : WeatherData),
    tf.mode = "chiller" → tf.heat_source = "Air" → C7Statement tf data := by
  intro tf data hm hh
  constructor
  · simp [chtWeatherTemp, hm, hh]
  · intro x hx
    unfold chillerAirTempHigh at hx
    rw [List.mem_map] at hx
    obtain ⟨y, _, hy⟩ := hx
    by_cases h : y = tf.temperature_low
    · rw [if_pos h] at hy
      subst hy
      constructor
      · intro hc
        have : (1 : ℚ) / 10 = 0 := by linarith
        norm_num at this
      · intro hc
        have : (1 : ℚ) / 10 = 0 := by linarith
        norm_num at this
    · rw [if_neg h] at hy
      subst hy
      exact ⟨h, fun hc => h (by linarith)⟩

/-- C7 witness: the nonzero temperature differential at a concrete
chiller row with an air heat source. -/
theorem C7_chiller_temp_difference_witness : C7Statement tfRowC weatherC :=
  C7_chiller_temp_difference tfRowC weatherC rfl rfl

/-- C7 counterexample: an ambient temperature of 19 degrees below the
configured low temperature of 20 degrees passes through unchanged, so
the high-side series is not floored at the low temperature plus 0.1. -/
theorem C7_not_floored_counterexample :
    chillerAirTempHigh weatherC.temperature tfRowC.temperature_low =
      [19, 20 + 1 / 10] ∧
    (19 : ℚ) ∈ chillerAirTempHigh weatherC.temperature
      tfRowC.temperature_low ∧
    ¬ (tfRowC.temperature_low + 1 / 10 ≤ 19) := by
  have h : chillerAirTempHigh weatherC.temperature tfRowC.temperature_low =
      [19, 20 + 1 / 10] := by
    norm_num [chillerAirTempHigh, weatherC, tfRowC]
  refine ⟨h, ?_, ?_⟩
  · rw [h]
    simp
  · norm_num [tfRowC]

/-- C8 (amended): a bus row whose label collides with an existing bus is
processed like any other row: the bus registry never fails, one bus is
appended per active row whatever its label, so a colliding label yields
a second bus under the same label (and the registry entry is silently
overwritten). -/
theorem C8_bus_collision_behavior : ∀ (rows : List BusRow)
    (ns : List Node) (l : String),
    ((buses rows ns).2.countP (Node.isBusLabeled l)) =
      ns.countP (Node.isBusLabeled l) +
      rows.countP (fun r => r.active && r.label == l) := by
  suffices h : ∀ (rows : List BusRow) (busd : List (String × String))
      (ns : List Node) (l : String),
      ((rows.foldl busesStep (busd, ns)).2.countP (Node.isBusLabeled l)) =
        ns.countP (Node.isBusLabeled l) +
        rows.countP (fun r => r.active && r.label == l) by
    intro rows ns l
    exact h rows [] ns l
  intro rows
  induction rows with
  | nil => intro busd ns l; simp
  | cons r rest ih =>
    intro busd ns l
    rw [List.foldl_cons]
    rcases hstep : busesStep (busd, ns) r with ⟨busd2, ns2⟩
    have hcount := busesStep_countBus busd ns r l
    rw [hstep] at hcount
    rw [ih busd2 ns2 l, hcount, List.countP_cons]
    omega

/-- C8 counterexample: two active rows with the same label A build
without failure; the node list receives two buses labeled A (the second
row is fully processed, its excess sink included) and the registry still
resolves A — no `ConfigurationError` is ever raised by the bus
registry, whose result type has no error outcome. -/
theorem C8_bus_collision_counterexample :
    (buses [busRowA1, busRowA2] []).2 =
      [Node.bus "A", Node.bus "A",
       Node.sink "A_excess" "A"
         { variable_costs := 0, emission_factor := 0 }] ∧
    dictGet (buses [busRowA1, busRowA2] []).1 "A" = some "A" := by
  constructor <;> rfl

/-- C9: any technology value other than other, photovoltaic, windpower
and timeseries dispatches to the solar-thermal branch, because the final
guard of the dispatch chain contains a non-empty string literal as right
operand of `or` and is therefore unconditionally true. -/
theorem C9_solar_dispatch_default : ∀ technology : String,
    technology ≠ "other" → technology ≠ "photovoltaic" →
    technology ≠ "windpower" → technology ≠ "timeseries" →
    sourcesDispatch technology = .solarHeat ∧
    ∀ (so : SourceRow) (ext : SourceExternals), so.active = true →
      so.technology = technology →
      processSourceRow so ext = solar_heat_source so ext.flatRaw ext.cspRaw := by
  intro tech h1 h2 h3 h4
  have hd : sourcesDispatch tech = .solarHeat := by
    simp [sourcesDispatch, pyTruthy, beq_iff_eq, h1, h2, h3, h4]
  refine ⟨hd, ?_⟩
  intro so ext hA hT
  rw [processSourceRow, hT, hd, if_pos hA]

/-- C9 witness: the dispatch at the unrecognized technology value
"foo". -/
theorem C9_solar_dispatch_default_witness :
    sourcesDispatch "foo" = .solarHeat ∧
    ∀ (so : SourceRow) (ext : SourceExternals), so.active = true →
      so.technology = "foo" →
      processSourceRow so ext = solar_heat_source so ext.flatRaw ext.cspRaw :=
  C9_solar_dispatch_default "foo" (by decide) (by decide) (by decide)
    (by decide)

/-- C10: every builder only appends to the shared node list: on every
successful return the output list extends the input list, leaving every
pre-existing element unchanged at its original position with all new
components after them. -/
theorem C10_builders_append_only :
    (∀ (rows : List BusRow) (ns : List Node),
      ∃ new, (buses rows ns).2 = ns ++ new) ∧
    (∀ (rows : List SourceRow) (ext : SourceExternals) (ns out : List Node),
      sourcesInit rows ext ns = .ok out → ∃ new, out = ns ++ new) ∧
    (∀ (rows : List SinkRow) (ext : SinkExternals) (ns out : List Node),
      sinksInit rows ext ns = .ok out → ∃ new, out = ns ++ new) ∧
    (∀ (rows : List TransformerRow) (data : WeatherData) (periods : ℕ)
      (cp : String → AbsCoeffs) (ns out : List Node),
      transformersInit rows data periods cp ns = .ok out →
        ∃ new, out = ns ++ new) ∧
    (∀ (rows : List StorageRow) (ext : StorageExternals) (ns : List Node),
      ∃ new, storagesInit rows ext ns = ns ++ new) ∧
    (∀ (rows : List LinkRow) (ns out : List Node),
      linksInit rows ns = .ok out → ∃ new, out = ns ++ new) := by
  refine ⟨?_, ?_, ?_, ?_, ?_, ?_⟩
  · intro rows ns
    exact busesFoldl_append rows [] ns
  · intro rows ext ns out h
    unfold sourcesInit at h
    cases hl : sourcesLoop ext rows [] with
    | error e => rw [hl, exceptErrorBind] at h; cases h
    | ok ns2 =>
      rw [hl, exceptOkBind] at h
      injection h with h
      exact ⟨ns2, h.symm⟩
  · intro rows ext ns out h
    unfold sinksInit at h
    cases hl : sinksLoop ext rows [] with
    | error e => rw [hl, exceptErrorBind] at h; cases h
    | ok ns2 =>
      rw [hl, exceptOkBind] at h
      injection h with h
      exact ⟨ns2, h.symm⟩
  · intro rows data periods cp ns out h
    unfold transformersInit at h
    cases hl : transformersLoop data periods cp rows [] with
    | error e => rw [hl, exceptErrorBind] at h; cases h
    | ok ns2 =>
      rw [hl, exceptOkBind] at h
      injection h with h
      exact ⟨ns2, h.symm⟩
  · intro rows ext ns
    exact ⟨rows.flatMap (fun s => processStorageRow s ext), rfl⟩
  · intro rows ns out h
    exact linksLoop_append rows ns out h

/-- C10 witness: the append-only behaviour at concrete inputs for every
builder. -/
theorem C10_builders_append_only_witness :
    (∃ new, (buses [busRowA1] [Node.bus "z"]).2 = [Node.bus "z"] ++ new) ∧
    (∃ new, ([Node.bus "s"] : List Node) = [Node.bus "s"] ++ new) ∧
    (∃ new, ([Node.bus "d"] : List Node) = [Node.bus "d"] ++ new) ∧
    (∃ new, ([Node.bus "t"] : List Node) = [Node.bus "t"] ++ new) ∧
    (∃ new, storagesInit [] storageExtW [Node.bus "g"] =
      [Node.bus "g"] ++ new) ∧
    (∃ new, ([Node.bus "m"] : List Node) = [Node.bus "m"] ++ new) :=
  ⟨C10_builders_append_only.1 [busRowA1] [Node.bus "z"],
   C10_builders_append_only.2.1 [] sourceExtW [Node.bus "s"]
     [Node.bus "s"] rfl,
   C10_builders_append_only.2.2.1 [] sinkExtW [Node.bus "d"]
     [Node.bus "d"] rfl,
   C10_builders_append_only.2.2.2.1 [] weatherC 1 charParaW [Node.bus "t"]
     [Node.bus "t"] rfl,
   C10_builders_append_only.2.2.2.2.1 [] storageExtW [Node.bus "g"],
   C10_builders_append_only.2.2.2.2.2 [] [Node.bus "m"] [Node.bus "m"] rfl⟩

end SESMG
